import Mathlib

/-!
Verification of the marketplace content-generation core of the
AI-powered e-commerce product-description generator.

The embedding below translates, definition by definition, the Python code of
`src/services/marketplace_service.py` (the rule catalog, the fact validator,
the template renderer, the keyword extractor, the per-marketplace generator
and the batch orchestrator) and the fallback JSON parser of
`src/chains/merge_chain.py` (`MergeChain._parse_output`) into Lean.

Modelling conventions:
  - Python dicts with a fixed key set become structures; a key read with
    `d.get(k, default)` whose absence and default coincide with the empty
    value is modelled as the plain value, while keys whose absence triggers a
    distinct textual default (`material_care`, `usage_instructions`,
    `ingredients`) are modelled as `Option String`.
  - Python string operations (`str.lower`, `str.strip`, `str.split`,
    slicing, `str.format`) are re-implemented over `List Char`, faithful to
    CPython semantics for the ASCII fragment the service manipulates.
  - `json.loads` (the Python standard library, external to the repository)
    is modelled by a recursive-descent parser `json_loads` for standard JSON
    (objects, arrays, strings with the common escapes, numbers, literals),
    which succeeds exactly on well-formed JSON text and consumes the whole
    input up to surrounding whitespace.
  - Exceptions that the Python code catches are modelled with `Except` /
    `Option`; every top-level entry point is a total Lean function, matching
    the fact that the Python entry points catch all exceptions at their
    boundary.
-/

/-- Python `price` values: the service only ever tests their truthiness
(`None` and `0` are falsy) and never renders them, so a rational carries
all the behaviour the code depends on. -/
abbrev Price := Option Rat

/-- The `basic_info` sub-dictionary of a product-info dictionary. -/
structure BasicInfo where
  brand_name : String
  product_name : String
  category : String
  description : String
  price : Price
  additional_notes : String
  material_care : Option String
  usage_instructions : Option String
  ingredients : Option String
deriving DecidableEq, Repr

/-- A specification value: Python scalars are rendered through `str`, lists
are joined with `", "`; scalars reaching this service are strings. -/
inductive SpecValue where
  | scalar (v : String)
  | several (vs : List String)
deriving DecidableEq, Repr

/-- The `product_info` dictionary handed to the marketplace service. -/
structure ProductInfo where
  basic_info : BasicInfo
  features : List String
  usps : List String
  specifications : List (String × SpecValue)
deriving DecidableEq, Repr

/-- One entry of `MarketplaceService.MARKETPLACE_TEMPLATES`. -/
structure MarketTemplate where
  name : String
  title : String
  description : String
  max_title_length : Nat
  max_bullets : Option Nat
  requires_technical_specs : Bool
  allows_html : Bool
  requires_brand : Bool
  requires_price : Bool
  requires_category : Bool
deriving DecidableEq, Repr

/-- The static rule catalog `MARKETPLACE_TEMPLATES`, transcribed entry by
entry from `src/services/marketplace_service.py`. -/
def MARKETPLACE_TEMPLATES : List (String × MarketTemplate) :=
  [ ("amazon_in",
     ⟨"Amazon India",
      "{brand} {product_name} - {key_features}",
      "**{brand} {product_name}**\n\n{product_description}\n\n**Key Features:**\n{features}\n\n**Specifications:**\n{specifications}\n\n**Why Choose {brand}?**\n{usps}\n\n{additional_notes}",
      200, some 5, true, true, true, true, true⟩),
    ("flipkart",
     ⟨"Flipkart",
      "{brand} {product_name} ({key_features})",
      "{product_description}\n\n• {features_bullets}\n\n**Specifications:**\n{specifications}\n\n{usps_bullets}\n\n{additional_notes}",
      100, none, true, false, true, true, true⟩),
    ("meesho",
     ⟨"Meesho",
      "{brand} {product_name}",
      "{product_description}\n\n{features_bullets}\n\n{usps_bullets}",
      60, some 3, false, false, false, true, true⟩),
    ("myntra",
     ⟨"Myntra",
      "{brand} {product_name} | {key_features}",
      "{brand} presents {product_name} - {key_features}\n\n{product_description}\n\n**Features:**\n{features}\n\n**Specifications:**\n{specifications}\n\n{usps_bullets}",
      80, some 4, true, true, true, true, true⟩),
    ("ajio",
     ⟨"Ajio",
      "{brand} {product_name}",
      "{product_description}\n\n**Key Features:**\n{features}\n\n**Material & Care:**\n{material_care}\n\n{usps_bullets}",
      70, some 5, false, true, true, true, true⟩),
    ("nykaa",
     ⟨"Nykaa",
      "{brand} {product_name} - {key_features}",
      "**{brand} {product_name}**\n\n{product_description}\n\n**Key Benefits:**\n{features}\n\n**How To Use:**\n{usage_instructions}\n\n**Ingredients:**\n{ingredients}\n\n{usps_bullets}",
      120, some 5, false, true, true, true, true⟩),
    ("shopify",
     ⟨"Shopify",
      "{product_name} by {brand}",
      "# {product_name}\n\n{product_description}\n\n## Features\n{features}\n\n## Specifications\n{specifications}\n\n## Why Choose This Product?\n{usps}",
      255, none, false, true, false, true, false⟩),
    ("etsy",
     ⟨"Etsy",
      "{product_name} - Handmade by {brand}",
      "{product_description}\n\n✨ **Features:**\n{features}\n\n📏 **Details:**\n{specifications}\n\n💖 {usps_bullets}\n\n{additional_notes}",
      140, some 5, false, true, false, true, true⟩) ]

/-- `MARKETPLACE_TEMPLATES.get(marketplace_key)`. -/
def templates_get (marketplace_key : String) : Option MarketTemplate :=
  MARKETPLACE_TEMPLATES.lookup marketplace_key

/-- Characters Python `str.strip()` / `str.split()` treat as whitespace
(restricted to the ASCII whitespace the service encounters). -/
def pyWs (c : Char) : Bool := c.isWhitespace

/-- Remove leading and trailing whitespace from a character list, as Python
`str.strip()` does. -/
def strip_chars (cs : List Char) : List Char :=
  ((cs.dropWhile pyWs).reverse.dropWhile pyWs).reverse

/-- Python `s.strip()`. -/
def py_strip (s : String) : String := String.mk (strip_chars s.data)

/-- Python `s.lower()` (ASCII letters; `Char.toLower` matches CPython on
the basic-latin range the service manipulates). -/
def py_lower (s : String) : String := String.mk (s.data.map Char.toLower)

/-- Accumulator pass behind Python `s.split()`: splits on whitespace runs
and drops empty pieces. -/
def split_ws_aux : List Char → List Char → List (List Char)
  | [], acc => if acc = [] then [] else [acc.reverse]
  | c :: rest, acc =>
    if pyWs c then
      if acc = [] then split_ws_aux rest []
      else acc.reverse :: split_ws_aux rest []
    else split_ws_aux rest (c :: acc)

/-- Python `s.split()` (no separator argument). -/
def py_split (s : String) : List String :=
  (split_ws_aux s.data []).map String.mk

/-- Python slicing `s[:k]` where `k` may be negative (counts from the end)
and is clamped to the string bounds. -/
def py_slice_to (s : String) (k : Int) : String :=
  if 0 ≤ k then String.mk (s.data.take k.toNat)
  else String.mk (s.data.take ((s.data.length : Int) + k).toNat)

/-- `MarketplaceService._format_features(features, max_items)`: truncate to
`max_items` when that bound is truthy and exceeded, then render as a
bulleted list. -/
def format_features (features : List String) (max_items : Option Nat) : String :=
  if features = [] then ""
  else
    let features :=
      match max_items with
      | some m => if m ≠ 0 ∧ m < features.length then features.take m else features
      | none => features
    "• " ++ String.intercalate "\n• " features

/-- `MarketplaceService._format_specifications(specs)`. -/
def format_specifications (specs : List (String × SpecValue)) : String :=
  if specs = [] then ""
  else
    String.intercalate "\n" (specs.map fun kv =>
      let value :=
        match kv.2 with
        | .scalar v => v
        | .several vs => String.intercalate ", " vs
      "- " ++ kv.1 ++ ": " ++ value)

/-- `MarketplaceService._validate_product_info(product_info, template)`:
the six checks, in source order, each contributing its fixed message. -/
def validate_product_info (product_info : ProductInfo) (template : MarketTemplate) : List String :=
  let basic_info := product_info.basic_info
  (if template.requires_brand ∧ basic_info.brand_name = ""
   then ["Brand name is required for this marketplace"] else []) ++
  (if template.requires_price ∧ (basic_info.price = none ∨ basic_info.price = some 0)
   then ["Price is required for this marketplace"] else []) ++
  (if template.requires_category ∧ basic_info.category = ""
   then ["Category is required for this marketplace"] else []) ++
  (if basic_info.product_name = ""
   then ["Product name is required"] else []) ++
  (if basic_info.description = ""
   then ["Product description is required"] else []) ++
  (if product_info.features = []
   then ["At least one feature is required"] else [])

/-- `MarketplaceService._process_template_variables(product_info, template)`:
the variable map handed to `str.format`, as an association list in the
source's key order. -/
def process_template_variables (product_info : ProductInfo) (template : MarketTemplate) : List (String × String) :=
  let basic_info := product_info.basic_info
  let features := product_info.features
  let usps := product_info.usps
  [ ("brand", basic_info.brand_name),
    ("product_name", basic_info.product_name),
    ("key_features", if features = [] then "" else String.intercalate ", " (features.take 3)),
    ("product_description", basic_info.description),
    ("features", format_features features none),
    ("features_bullets", format_features features template.max_bullets),
    ("usps", if usps = [] then "" else String.intercalate "\n" usps),
    ("usps_bullets", format_features usps (some 3)),
    ("specifications", format_specifications product_info.specifications),
    ("additional_notes", basic_info.additional_notes),
    ("material_care", basic_info.material_care.getD "Not specified"),
    ("usage_instructions", basic_info.usage_instructions.getD "Refer to product packaging for usage instructions"),
    ("ingredients", basic_info.ingredients.getD "Refer to product packaging for full ingredient list") ]

/-- Errors `str.format` can raise: `KeyError` for a placeholder missing from
the variable map, `ValueError` for malformed brace syntax. -/
inductive FmtError where
  | keyError (k : String)
  | valueError (msg : String)
deriving DecidableEq, Repr

/-- One token of a format string: a literal character or a `{name}` field. -/
inductive FmtTok where
  | lit (c : Char)
  | field (name : String)
deriving DecidableEq, Repr

/-- Split a character list at the first `}`, returning the field name and
the remainder. -/
def break_at_close : List Char → Option (List Char × List Char)
  | [] => none
  | c :: rest =>
    if c = '}' then some ([], rest)
    else
      match break_at_close rest with
      | some (name, rem) => some (c :: name, rem)
      | none => none

/-- Tokenize a `str.format` template (`{{`/`}}` escapes, `{name}` fields,
`ValueError` on unbalanced braces), with fuel for termination. -/
def fmt_tokenize_aux : Nat → List Char → Except FmtError (List FmtTok)
  | _, [] => .ok []
  | 0, _ :: _ => .error (.valueError "format fuel exhausted")
  | Nat.succ fuel, c :: rest =>
    if c = '{' then
      match rest with
      | d :: rest2 =>
        if d = '{' then (fmt_tokenize_aux fuel rest2).map (FmtTok.lit '{' :: ·)
        else
          match break_at_close rest with
          | some (name, rem) => (fmt_tokenize_aux fuel rem).map (FmtTok.field (String.mk name) :: ·)
          | none => .error (.valueError "Single \x7b encountered in format string")
      | [] => .error (.valueError "Single \x7b encountered in format string")
    else if c = '}' then
      match rest with
      | d :: rest2 =>
        if d = '}' then (fmt_tokenize_aux fuel rest2).map (FmtTok.lit '}' :: ·)
        else .error (.valueError "Single \x7d encountered in format string")
      | [] => .error (.valueError "Single \x7d encountered in format string")
    else (fmt_tokenize_aux fuel rest).map (FmtTok.lit c :: ·)

/-- Render a token list against a variable map; a missing field name is a
`KeyError`. -/
def fmt_render : List FmtTok → List (String × String) → Except FmtError String
  | [], _ => .ok ""
  | FmtTok.lit c :: toks, vars =>
    (fmt_render toks vars).map (String.singleton c ++ ·)
  | FmtTok.field name :: toks, vars =>
    match vars.lookup name with
    | some v => (fmt_render toks vars).map (v ++ ·)
    | none => .error (.keyError name)

/-- Python `template.format(**vars)` for the keyword-free `{name}` fields
the service's templates use. -/
def str_format (template : String) (vars : List (String × String)) : Except FmtError String :=
  match fmt_tokenize_aux template.data.length template.data with
  | .ok toks => fmt_render toks vars
  | .error e => .error e

/-- Insert into a Python-set model (list without duplicates, insertion
ordered). -/
def pyset_insert (l : List String) (x : String) : List String :=
  if x ∈ l then l else l ++ [x]

/-- `set.update`: insert each element in turn. -/
def pyset_update (l : List String) (xs : List String) : List String :=
  xs.foldl pyset_insert l

/-- `MarketplaceService._generate_keywords(product_name, brand, category,
features)`: tokenised, lower-cased terms plus fixed commerce terms, filtered
by raw length > 2 and non-blank, stripped, first 20 kept.  The Python code
accumulates into a `set` whose iteration order is implementation defined;
the model linearises it in insertion order, which is sound for the
order-independent properties stated about it. -/
def keyword_pool (product_name brand category : String) (features : List String) : List String :=
  let keywords : List String := []
  let keywords := pyset_update keywords (py_split (py_lower product_name))
  let keywords := pyset_insert keywords (py_lower brand)
  let keywords := if category ≠ "" then pyset_update keywords (py_split (py_lower category)) else keywords
  let keywords := features.foldl (fun acc f => pyset_update acc (py_split (py_lower f))) keywords
  pyset_update keywords ["buy", "sale", "discount", "best price", "online"]

/-- The final list comprehension and `[:20]` slice of `_generate_keywords`:
keep raw tokens of length over two whose strip is non-empty, strip them,
and take the first twenty. -/
def generate_keywords (product_name brand category : String) (features : List String) : List String :=
  let keywords := keyword_pool product_name brand category features
  let keywords := (keywords.filter (fun k => k.length > 2 ∧ py_strip k ≠ "")).map py_strip
  keywords.take 20

/-- An ASCII single-quote character, as `str(KeyError)` prints around the
missing key. -/
def squote : String := String.singleton (Char.ofNat 39)

/-- `str(e)` for the exceptions the generator can see (`KeyError` prints
the repr of its key, `ValueError` its message). -/
def fmt_error_str : FmtError → String
  | .keyError k => squote ++ k ++ squote
  | .valueError msg => msg

/-- The dictionary returned by `generate_marketplace_content`: each Python
key that is present only on some paths becomes an `Option` field. -/
structure GenResult where
  success : Bool
  marketplace : Option String
  marketplace_name : Option String
  error : Option String
  validation_errors : Option (List String)
  title : Option String
  description : Option String
  bullet_points : Option (List String)
  keywords : Option (List String)
  specifications : Option (List (String × SpecValue))
  template : Option MarketTemplate
deriving DecidableEq, Repr

/-- The `{"success": False, "error": ...}` dictionary (unknown marketplace,
missing template variable). -/
def errorResult (msg : String) : GenResult :=
  ⟨false, none, none, some msg, none, none, none, none, none, none, none⟩

/-- The validation-failure dictionary, which also carries the error list. -/
def validationFailureResult (msg : String) (errs : List String) : GenResult :=
  ⟨false, none, none, some msg, some errs, none, none, none, none, none, none⟩

/-- The catch-all `except Exception` dictionary, which names the
marketplace. -/
def unexpectedErrorResult (marketplace_key : String) (template : MarketTemplate) (e : FmtError) : GenResult :=
  ⟨false, some marketplace_key, some template.name,
   some ("Unexpected error generating content for " ++ marketplace_key ++ ": " ++ fmt_error_str e),
   none, none, none, none, none, none, none⟩

/-- Title post-processing in `generate_marketplace_content`: truncate to
`max_title_length - 3` characters and append `"..."` when over the limit. -/
def truncate_title (title : String) (max_title_length : Nat) : String :=
  if title.length > max_title_length
  then py_slice_to title ((max_title_length : Int) - 3) ++ "..."
  else title

/-- Bullet-point computation in `generate_marketplace_content`: only when
`max_bullets` and the feature list are both truthy. -/
def bullet_points_of (template : MarketTemplate) (product_info : ProductInfo) : List String :=
  match template.max_bullets, product_info.features with
  | some (Nat.succ m), f :: fs => (f :: fs).take (Nat.succ m)
  | _, _ => []

/-- The success dictionary assembled at the end of
`generate_marketplace_content`. -/
def successResult (marketplace_key : String) (template : MarketTemplate)
    (product_info : ProductInfo) (title description : String) : GenResult :=
  ⟨true, some marketplace_key, some template.name, none, none,
   some (truncate_title title template.max_title_length),
   some description,
   some (bullet_points_of template product_info),
   some (generate_keywords product_info.basic_info.product_name
           product_info.basic_info.brand_name
           product_info.basic_info.category
           product_info.features),
   some (if template.requires_technical_specs then product_info.specifications else []),
   some template⟩

/-- `MarketplaceService.generate_marketplace_content(product_info,
marketplace_key)`.  The variable map binds `product_name` and `brand`
directly from `basic_info`, so the keyword call reads those fields; a title
`KeyError`/`ValueError` and a description `ValueError` fall through to the
outer `except Exception`, while a description `KeyError` produces the
dedicated missing-variable error. -/
def generate_marketplace_content (product_info : ProductInfo) (marketplace_key : String) : GenResult :=
  match templates_get marketplace_key with
  | none => errorResult ("No template found for marketplace: " ++ marketplace_key)
  | some template =>
    match validate_product_info product_info template with
    | e :: es =>
      validationFailureResult
        ("Validation failed: " ++ String.intercalate "; " (e :: es)) (e :: es)
    | [] =>
      let template_vars := process_template_variables product_info template
      match str_format template.title template_vars with
      | .error e => unexpectedErrorResult marketplace_key template e
      | .ok title =>
        match str_format template.description template_vars with
        | .error (.keyError k) =>
          errorResult ("Missing required template variable: " ++ fmt_error_str (.keyError k))
        | .error (.valueError m) => unexpectedErrorResult marketplace_key template (.valueError m)
        | .ok description => successResult marketplace_key template product_info title description

/-- The dictionary returned by `generate_all_marketplace_content`. -/
structure BatchResult where
  success : Bool
  results : List (String × GenResult)
deriving DecidableEq, Repr

/-- `MarketplaceService.generate_all_marketplace_content(product_info,
marketplace_keys)`: one generation per requested key, wrapped with a
hard-coded `"success": True`. -/
def generate_all_marketplace_content (product_info : ProductInfo) (marketplace_keys : List String) : BatchResult :=
  ⟨true, marketplace_keys.map fun marketplace => (marketplace, generate_marketplace_content product_info marketplace)⟩

/-- JSON values as `json.loads` produces them (numbers kept as their source
text, which is all the parsing claims depend on). -/
inductive PyJson where
  | null
  | bool (b : Bool)
  | num (raw : String)
  | str (s : String)
  | arr (xs : List PyJson)
  | obj (kvs : List (String × PyJson))
deriving Repr, BEq

/-- Skip JSON whitespace (space, tab, newline, carriage return — exactly the
characters `json.loads` skips). -/
def json_ws : List Char → List Char :=
  List.dropWhile Char.isWhitespace

/-- Body of a JSON string after the opening quote: returns the decoded
characters and the input past the closing quote.  Handles the single-letter
escapes; control characters and unknown escapes are parse errors. -/
def parse_jstring_aux : List Char → Option (List Char × List Char)
  | [] => none
  | c :: rest =>
    if c = '"' then some ([], rest)
    else if c = '\\' then
      match rest with
      | [] => none
      | e :: rest2 =>
        let decoded : Option Char :=
          if e = '"' then some '"'
          else if e = '\\' then some '\\'
          else if e = '/' then some '/'
          else if e = 'n' then some '\n'
          else if e = 't' then some '\t'
          else if e = 'r' then some '\r'
          else if e = 'b' then some (Char.ofNat 8)
          else if e = 'f' then some (Char.ofNat 12)
          else none
        match decoded with
        | some d =>
          match parse_jstring_aux rest2 with
          | some (cs, rem) => some (d :: cs, rem)
          | none => none
        | none => none
    else if c.toNat < 32 then none
    else
      match parse_jstring_aux rest with
      | some (cs, rem) => some (c :: cs, rem)
      | none => none

/-- Digit run splitter used by the number grammar. -/
def json_digits (cs : List Char) : List Char × List Char :=
  (cs.takeWhile Char.isDigit, cs.dropWhile Char.isDigit)

/-- JSON number grammar: `-? int frac? exp?` with the leading-zero rule;
returns the raw literal text. -/
def parse_jnumber (cs : List Char) : Option (List Char × List Char) :=
  let (neg, cs1) :=
    match cs with
    | '-' :: rest => (['-'], rest)
    | _ => (([] : List Char), cs)
  match json_digits cs1 with
  | ([], _) => none
  | (d :: ds, cs2) =>
    if d = '0' ∧ ds ≠ [] then none
    else
      let intPart := neg ++ d :: ds
      let (fracPart, cs3) :=
        match cs2 with
        | '.' :: rest =>
          match json_digits rest with
          | ([], _) => (none, cs2)
          | (f :: fs, rem) => (some ('.' :: f :: fs), rem)
        | _ => (none, cs2)
      match fracPart, cs2 with
      | none, '.' :: _ => none
      | _, _ =>
        let (expPart, cs4) :=
          match cs3 with
          | e :: rest =>
            if e = 'e' ∨ e = 'E' then
              let (sgn, rest2) :=
                match rest with
                | s :: r2 => if s = '+' ∨ s = '-' then ([s], r2) else (([] : List Char), rest)
                | [] => (([] : List Char), rest)
              match json_digits rest2 with
              | ([], _) => (none, cs3)
              | (g :: gs, rem) => (some (e :: sgn ++ g :: gs), rem)
            else (none, cs3)
          | [] => (none, cs3)
        match expPart, cs3 with
        | none, e :: _ =>
          if e = 'e' ∨ e = 'E' then none
          else some (intPart ++ fracPart.getD [], cs3)
        | _, _ => some (intPart ++ fracPart.getD [] ++ expPart.getD [], cs4)

mutual

/-- JSON value parser with fuel; returns the value and the unconsumed
input.  Mirrors `json.loads`, including its acceptance of the Python
extensions `NaN`, `Infinity` and `-Infinity`. -/
def parse_jvalue : Nat → List Char → Option (PyJson × List Char)
  | 0, _ => none
  | Nat.succ fuel, cs =>
    match json_ws cs with
    | [] => none
    | c :: rest =>
      if c = '"' then
        match parse_jstring_aux rest with
        | some (body, rem) => some (.str (String.mk body), rem)
        | none => none
      else if c = '{' then
        match json_ws rest with
        | '}' :: rem => some (.obj [], rem)
        | _ => parse_jobj_items fuel (json_ws rest) []
      else if c = '[' then
        match json_ws rest with
        | ']' :: rem => some (.arr [], rem)
        | _ => parse_jarr_items fuel (json_ws rest) []
      else
        match c :: rest with
        | 't' :: 'r' :: 'u' :: 'e' :: rem => some (.bool true, rem)
        | 'f' :: 'a' :: 'l' :: 's' :: 'e' :: rem => some (.bool false, rem)
        | 'n' :: 'u' :: 'l' :: 'l' :: rem => some (.null, rem)
        | 'N' :: 'a' :: 'N' :: rem => some (.num "NaN", rem)
        | 'I' :: 'n' :: 'f' :: 'i' :: 'n' :: 'i' :: 't' :: 'y' :: rem => some (.num "Infinity", rem)
        | '-' :: 'I' :: 'n' :: 'f' :: 'i' :: 'n' :: 'i' :: 't' :: 'y' :: rem => some (.num "-Infinity", rem)
        | cs2 =>
          match parse_jnumber cs2 with
          | some (raw, rem) => some (.num (String.mk raw), rem)
          | none => none

/-- Comma-separated object members after `{`, accumulating parsed pairs. -/
def parse_jobj_items : Nat → List Char → List (String × PyJson) → Option (PyJson × List Char)
  | 0, _, _ => none
  | Nat.succ fuel, cs, acc =>
    match cs with
    | '"' :: rest =>
      match parse_jstring_aux rest with
      | some (key, rem) =>
        match json_ws rem with
        | ':' :: rem2 =>
          match parse_jvalue fuel rem2 with
          | some (v, rem3) =>
            let acc2 := acc ++ [(String.mk key, v)]
            match json_ws rem3 with
            | ',' :: rem4 => parse_jobj_items fuel (json_ws rem4) acc2
            | '}' :: rem4 => some (.obj acc2, rem4)
            | _ => none
          | none => none
        | _ => none
      | none => none
    | _ => none

/-- Comma-separated array items after `[`, accumulating parsed values. -/
def parse_jarr_items : Nat → List Char → List PyJson → Option (PyJson × List Char)
  | 0, _, _ => none
  | Nat.succ fuel, cs, acc =>
    match parse_jvalue fuel cs with
    | some (v, rem) =>
      let acc2 := acc ++ [v]
      match json_ws rem with
      | ',' :: rem2 => parse_jarr_items fuel rem2 acc2
      | ']' :: rem2 => some (.arr acc2, rem2)
      | _ => none
    | none => none
end

/-- `json.loads(s)`: parse one JSON value and require that only whitespace
remains. -/
def json_loads (s : String) : Option PyJson :=
  match parse_jvalue (s.data.length + 1) s.data with
  | some (v, rest) => if json_ws rest = [] then some v else none
  | none => none

/-- Index of the first occurrence of `c` in `cs`, as Python `str.find`
(absence modelled by `none` instead of `-1`). -/
def py_find (cs : List Char) (c : Char) : Option Nat :=
  cs.findIdx? (· == c)

/-- Index of the last occurrence of `c` in `cs`, as Python `str.rfind`. -/
def py_rfind (cs : List Char) (c : Char) : Option Nat :=
  (cs.reverse.findIdx? (· == c)).map (fun i => cs.length - 1 - i)

/-- The substring from the first `{` to the last `}` that
`MergeChain._parse_output` retries on, when the indices exist and the slice
is non-degenerate (`end > start`). -/
def brace_slice (output : String) : Option String :=
  let cs := output.data
  match py_find cs '{', py_rfind cs '}' with
  | some s, some e =>
    if s < e + 1 then some (String.mk ((cs.drop s).take (e + 1 - s)))
    else none
  | _, _ => none

/-- Result of `MergeChain._parse_output`: either a parsed value or the
`{"error": ..., "raw_output": ...}` dictionary. -/
inductive MergeParse where
  | parsed (v : PyJson)
  | parseError (msg : String) (raw : String)
deriving Repr, BEq

/-- `MergeChain._parse_output(output)`: direct parse of the stripped reply,
then the first-`{`-to-last-`}` substring, then the error dictionary carrying
the raw output. -/
def parse_output (output : String) : MergeParse :=
  match json_loads (py_strip output) with
  | some v => .parsed v
  | none =>
    match brace_slice output with
    | some sub =>
      match json_loads sub with
      | some v => .parsed v
      | none => .parseError "Failed to parse model output" output
    | none => .parseError "Failed to parse model output" output

/-- Read of `product_info["basic_info"]` with the (possibly updated) dict
threaded explicitly, for the frame-condition statements. -/
def pi_read_basic_info (product_info : ProductInfo) : BasicInfo × ProductInfo :=
  (product_info.basic_info, product_info)

/-- Read of `product_info["features"]`, state threaded. -/
def pi_read_features (product_info : ProductInfo) : List String × ProductInfo :=
  (product_info.features, product_info)

/-- Read of `product_info["usps"]`, state threaded. -/
def pi_read_usps (product_info : ProductInfo) : List String × ProductInfo :=
  (product_info.usps, product_info)

/-- Read of `product_info["specifications"]`, state threaded. -/
def pi_read_specifications (product_info : ProductInfo) : List (String × SpecValue) × ProductInfo :=
  (product_info.specifications, product_info)

/-- `_validate_product_info` with the product-info dictionary threaded as
explicit state through each read the source performs. -/
def validate_product_info_st (product_info : ProductInfo) (template : MarketTemplate) :
    List String × ProductInfo :=
  let (basic_info, product_info) := pi_read_basic_info product_info
  let errs :=
    (if template.requires_brand ∧ basic_info.brand_name = ""
     then ["Brand name is required for this marketplace"] else []) ++
    (if template.requires_price ∧ (basic_info.price = none ∨ basic_info.price = some 0)
     then ["Price is required for this marketplace"] else []) ++
    (if template.requires_category ∧ basic_info.category = ""
     then ["Category is required for this marketplace"] else []) ++
    (if basic_info.product_name = ""
     then ["Product name is required"] else []) ++
    (if basic_info.description = ""
     then ["Product description is required"] else [])
  let (features, product_info) := pi_read_features product_info
  (errs ++ (if features = [] then ["At least one feature is required"] else []), product_info)

/-- `_process_template_variables` with the dictionary threaded as state. -/
def process_template_variables_st (product_info : ProductInfo) (template : MarketTemplate) :
    List (String × String) × ProductInfo :=
  let (basic_info, product_info) := pi_read_basic_info product_info
  let (features, product_info) := pi_read_features product_info
  let (usps, product_info) := pi_read_usps product_info
  let (specs, product_info) := pi_read_specifications product_info
  ([ ("brand", basic_info.brand_name),
     ("product_name", basic_info.product_name),
     ("key_features", if features = [] then "" else String.intercalate ", " (features.take 3)),
     ("product_description", basic_info.description),
     ("features", format_features features none),
     ("features_bullets", format_features features template.max_bullets),
     ("usps", if usps = [] then "" else String.intercalate "\n" usps),
     ("usps_bullets", format_features usps (some 3)),
     ("specifications", format_specifications specs),
     ("additional_notes", basic_info.additional_notes),
     ("material_care", basic_info.material_care.getD "Not specified"),
     ("usage_instructions", basic_info.usage_instructions.getD "Refer to product packaging for usage instructions"),
     ("ingredients", basic_info.ingredients.getD "Refer to product packaging for full ingredient list") ],
   product_info)

/-- `generate_marketplace_content` with the product-info dictionary
threaded as explicit state through every read, so that the absence of
mutation is a provable statement rather than a modelling assumption. -/
def generate_marketplace_content_st (product_info : ProductInfo) (marketplace_key : String) :
    GenResult × ProductInfo :=
  match templates_get marketplace_key with
  | none => (errorResult ("No template found for marketplace: " ++ marketplace_key), product_info)
  | some template =>
    match validate_product_info_st product_info template with
    | (e :: es, product_info) =>
      (validationFailureResult
        ("Validation failed: " ++ String.intercalate "; " (e :: es)) (e :: es), product_info)
    | ([], product_info) =>
      let (template_vars, product_info) := process_template_variables_st product_info template
      match str_format template.title template_vars with
      | .error e => (unexpectedErrorResult marketplace_key template e, product_info)
      | .ok title =>
        match str_format template.description template_vars with
        | .error (.keyError k) =>
          (errorResult ("Missing required template variable: " ++ fmt_error_str (.keyError k)),
           product_info)
        | .error (.valueError m) =>
          (unexpectedErrorResult marketplace_key template (.valueError m), product_info)
        | .ok description =>
          let (features, product_info) := pi_read_features product_info
          let bullets :=
            match template.max_bullets, features with
            | some (Nat.succ m), f :: fs => (f :: fs).take (Nat.succ m)
            | _, _ => []
          let (basic_info, product_info) := pi_read_basic_info product_info
          let (features2, product_info) := pi_read_features product_info
          let keywords := generate_keywords basic_info.product_name basic_info.brand_name
            basic_info.category features2
          let (specs, product_info) := pi_read_specifications product_info
          (⟨true, some marketplace_key, some template.name, none, none,
            some (truncate_title title template.max_title_length),
            some description, some bullets, some keywords,
            some (if template.requires_technical_specs then specs else []),
            some template⟩, product_info)

/-- `generate_all_marketplace_content` with the dictionary threaded through
every per-marketplace generation. -/
def generate_all_marketplace_content_st (product_info : ProductInfo) (marketplace_keys : List String) :
    BatchResult × ProductInfo :=
  let step :=
    marketplace_keys.foldl
      (fun (acc : List (String × GenResult) × ProductInfo) marketplace =>
        (acc.1 ++ [(marketplace, (generate_marketplace_content_st acc.2 marketplace).1)],
         (generate_marketplace_content_st acc.2 marketplace).2))
      ([], product_info)
  (⟨true, step.1⟩, step.2)

/-- A key that `lookup` resolves denotes an entry of the catalog list. -/
theorem mem_of_templates_get {key : String} {template : MarketTemplate}
    (h : templates_get key = some template) : (key, template) ∈ MARKETPLACE_TEMPLATES := by
  unfold templates_get at h
  rcases List.lookup_eq_some_iff.mp h with ⟨l₁, l₂, hdec, -⟩
  rw [hdec]
  simp

/-- Every catalog rule allows titles of at least three characters, so the
`max_title_length - 3` truncation never clamps at zero. -/
theorem catalog_title_length_ge_three :
    ∀ p ∈ MARKETPLACE_TEMPLATES, 3 ≤ p.2.max_title_length := by decide

/-- Shape of `generate_marketplace_content` on the all-checks-pass path. -/
theorem generate_eq_success {product_info : ProductInfo} {marketplace_key : String}
    {template : MarketTemplate} {title description : String}
    (hT : templates_get marketplace_key = some template)
    (hV : validate_product_info product_info template = [])
    (hTi : str_format template.title (process_template_variables product_info template) = .ok title)
    (hD : str_format template.description (process_template_variables product_info template) = .ok description) :
    generate_marketplace_content product_info marketplace_key
      = successResult marketplace_key template product_info title description := by
  unfold generate_marketplace_content
  rw [hT]
  simp only [hV, hTi, hD]

/-- A fact set passing validation has a non-empty feature list (the last
check would otherwise have contributed its message). -/
theorem features_ne_nil_of_validate {product_info : ProductInfo} {template : MarketTemplate}
    (h : validate_product_info product_info template = []) : product_info.features ≠ [] := by
  intro hf
  unfold validate_product_info at h
  rw [hf] at h
  simp at h

/-- All-empty product facts: fail validation on every catalog marketplace. -/
def emptyFacts : ProductInfo :=
  ⟨⟨"", "", "", "", none, "", none, none, none⟩, [], [], []⟩

/-- Does every outcome of a batch carry `success = false`? -/
def all_outcomes_failed (batch : BatchResult) : Bool :=
  batch.results.all fun r => r.2.success = false

/-- C1 counterexample: a batch in which every per-marketplace outcome is a
`Failure` still carries a top-level `success` of `true`, so `overallSuccess`
is not "true iff at least one outcome is a Success". -/
theorem c1_counterexample :
    all_outcomes_failed (generate_all_marketplace_content emptyFacts ["amazon_in", "flipkart"]) = true
    ∧ (generate_all_marketplace_content emptyFacts ["amazon_in", "flipkart"]).results ≠ []
    ∧ (generate_all_marketplace_content emptyFacts ["amazon_in", "flipkart"]).success = true := by
  refine ⟨by decide, by decide, rfl⟩

/-- C1 (amended): the top-level `success` field of the batch result is the
constant `true`, whatever the fact set and marketplace keys; callers must
count successes in the `results` map themselves. -/
theorem c1_overall_success_always_true :
    ∀ (product_info : ProductInfo) (marketplace_keys : List String),
      (generate_all_marketplace_content product_info marketplace_keys).success = true := by
  intro product_info marketplace_keys
  rfl

/-- C4: an unknown marketplace key makes `generate_marketplace_content`
return the no-template failure dictionary (and, the function being total,
nothing escapes its boundary). -/
theorem c4_unknown_marketplace :
    ∀ (product_info : ProductInfo) (marketplace_key : String),
      templates_get marketplace_key = none →
      generate_marketplace_content product_info marketplace_key
        = errorResult ("No template found for marketplace: " ++ marketplace_key) := by
  intro product_info marketplace_key h
  unfold generate_marketplace_content
  rw [h]

/-- C4 witness: the concrete unsupported key `snapdeal`. -/
theorem c4_unknown_marketplace_witness :
    generate_marketplace_content emptyFacts "snapdeal"
      = errorResult ("No template found for marketplace: " ++ "snapdeal") :=
  c4_unknown_marketplace emptyFacts "snapdeal" (by decide)

/-- The spec's end-to-end validation example: non-empty product name,
description and features, empty brand, null price. -/
def mouseFacts : ProductInfo :=
  ⟨⟨"", "Wireless Mouse", "", "Ergonomic mouse", none, "", none, none, none⟩,
   ["2.4GHz", "USB-C"], [], []⟩

/-- A rule requiring brand and price (and nothing else). -/
def brandPriceRule : MarketTemplate :=
  ⟨"Example", "{product_name}", "{product_description}", 100, none,
   false, false, true, true, false⟩

/-- The six validation messages in the fixed order the validator checks
them: brand, price, category, product name, description, features. -/
def validation_messages : List String :=
  [ "Brand name is required for this marketplace",
    "Price is required for this marketplace",
    "Category is required for this marketplace",
    "Product name is required",
    "Product description is required",
    "At least one feature is required" ]

/-- C5: the validator's output is always an in-order selection of the six
fixed messages (brand, price, category, product name, description,
features), and the spec's example yields exactly the brand and price
messages, in that order. -/
theorem c5_validation_order :
    (∀ (product_info : ProductInfo) (template : MarketTemplate),
       List.Sublist (validate_product_info product_info template) validation_messages)
    ∧ validate_product_info mouseFacts brandPriceRule
        = [ "Brand name is required for this marketplace",
            "Price is required for this marketplace" ] := by
  constructor
  · intro product_info template
    rw [show validation_messages
          = ((((["Brand name is required for this marketplace"]
             ++ ["Price is required for this marketplace"])
             ++ ["Category is required for this marketplace"])
             ++ ["Product name is required"])
             ++ ["Product description is required"])
             ++ ["At least one feature is required"] from rfl]
    simp only [validate_product_info]
    refine List.Sublist.append (List.Sublist.append (List.Sublist.append
      (List.Sublist.append (List.Sublist.append ?_ ?_) ?_) ?_) ?_) ?_ <;>
      (split <;> simp)
  · decide

/-- A fact set satisfying every catalog marketplace's requirements. -/
def fullFacts : ProductInfo :=
  ⟨⟨"Acme", "Wireless Mouse", "electronics", "Ergonomic mouse", some 10, "", none, none, none⟩,
   ["2.4GHz wireless", "USB-C charging"], ["durable"], [("weight", .scalar "90g")]⟩

/-- The catalog's Flipkart rule, spelled out. -/
def flipkartRule : MarketTemplate :=
  ⟨"Flipkart",
   "{brand} {product_name} ({key_features})",
   "{product_description}\n\n• {features_bullets}\n\n**Specifications:**\n{specifications}\n\n{usps_bullets}\n\n{additional_notes}",
   100, none, true, false, true, true, true⟩

/-- C2 counterexample: on the Flipkart rule (`maxBullets = None`,
"unbounded"), a successful outcome for a fact set with a non-empty feature
list carries an *empty* bullet-point list, not the entire feature list: the
truthiness test `if template.get("max_bullets")` skips the bullet
computation when the bound is `None`. -/
theorem c2_counterexample :
    (templates_get "flipkart").map MarketTemplate.max_bullets = some none
    ∧ (generate_marketplace_content fullFacts "flipkart").success = true
    ∧ fullFacts.features ≠ []
    ∧ (generate_marketplace_content fullFacts "flipkart").bullet_points = some []
    ∧ (generate_marketplace_content fullFacts "flipkart").bullet_points
        ≠ some fullFacts.features := by
  decide

/-- C2 (amended): in a successful outcome the bullet points are the first
`maxBullets` feature strings when `maxBullets` is a positive integer, and
the *empty* list when `maxBullets` is `None` (unbounded), regardless of the
feature list. -/
theorem c2_bullet_points :
    ∀ (product_info : ProductInfo) (marketplace_key : String) (template : MarketTemplate)
      (title description : String),
      templates_get marketplace_key = some template →
      validate_product_info product_info template = [] →
      str_format template.title (process_template_variables product_info template) = .ok title →
      str_format template.description (process_template_variables product_info template) = .ok description →
      ((∀ m, template.max_bullets = some m → 0 < m →
          (generate_marketplace_content product_info marketplace_key).bullet_points
            = some (product_info.features.take m))
       ∧ (template.max_bullets = none →
          (generate_marketplace_content product_info marketplace_key).bullet_points = some [])) := by
  intro product_info marketplace_key template title description hT hV hTi hD
  rw [generate_eq_success hT hV hTi hD]
  constructor
  · intro m hm hpos
    obtain ⟨m', rfl⟩ : ∃ m', m = Nat.succ m' :=
      ⟨m - 1, by omega⟩
    rcases hfe : product_info.features with _ | ⟨f, fs⟩
    · exact absurd hfe (features_ne_nil_of_validate hV)
    · simp [successResult, bullet_points_of, hm, hfe]
  · intro hm
    simp [successResult, bullet_points_of, hm]

/-- C2 witness: the amended statement at the Flipkart example. -/
theorem c2_bullet_points_witness :
    (generate_marketplace_content fullFacts "flipkart").bullet_points = some [] :=
  (c2_bullet_points fullFacts "flipkart" flipkartRule
    "Acme Wireless Mouse (2.4GHz wireless, USB-C charging)"
    "Ergonomic mouse\n\n• • 2.4GHz wireless\n• USB-C charging\n\n**Specifications:**\n- weight: 90g\n\n• durable\n\n"
    (by decide) (by decide) (by rfl) (by rfl)).2 rfl

/-- The catalog's Meesho rule, spelled out. -/
def meeshoRule : MarketTemplate :=
  ⟨"Meesho",
   "{brand} {product_name}",
   "{product_description}\n\n{features_bullets}\n\n{usps_bullets}",
   60, some 3, false, false, false, true, true⟩

/-- C8: in a successful outcome the specifications field is the fact set's
specification map exactly when the rule requires technical specs, and the
empty map otherwise — even for fact sets with non-empty specifications. -/
theorem c8_specifications_gating :
    ∀ (product_info : ProductInfo) (marketplace_key : String) (template : MarketTemplate)
      (title description : String),
      templates_get marketplace_key = some template →
      validate_product_info product_info template = [] →
      str_format template.title (process_template_variables product_info template) = .ok title →
      str_format template.description (process_template_variables product_info template) = .ok description →
      (generate_marketplace_content product_info marketplace_key).specifications
        = some (if template.requires_technical_specs then product_info.specifications else []) := by
  intro product_info marketplace_key template title description hT hV hTi hD
  rw [generate_eq_success hT hV hTi hD]
  rfl

/-- C8 witness: Meesho does not require technical specs, so a fact set
with a non-empty specification map gets an empty one back. -/
theorem c8_specifications_gating_witness :
    (generate_marketplace_content fullFacts "meesho").specifications = some []
    ∧ fullFacts.specifications ≠ [] := by
  have h := c8_specifications_gating fullFacts "meesho" meeshoRule
    "Acme Wireless Mouse"
    "Ergonomic mouse\n\n• 2.4GHz wireless\n• USB-C charging\n\n• durable"
    (by decide) (by decide) (by rfl) (by rfl)
  exact ⟨by simpa using h, by decide⟩

/-- Facts whose Meesho title renders over the 60-character limit. -/
def longFacts : ProductInfo :=
  ⟨⟨"B", String.mk (List.replicate 70 'a'), "cat", "desc", some 5, "", none, none, none⟩,
   ["feat one"], [], []⟩

/-- C6: when the rendered title exceeds the rule's `maxTitleLength`, the
success outcome carries that string cut to `maxTitleLength - 3` characters
with `"..."` appended — length exactly `maxTitleLength`, ending in `"..."`
— and a rendered title within the limit is passed through unchanged. -/
theorem c6_title_truncation :
    ∀ (product_info : ProductInfo) (marketplace_key : String) (template : MarketTemplate)
      (title description : String),
      templates_get marketplace_key = some template →
      validate_product_info product_info template = [] →
      str_format template.title (process_template_variables product_info template) = .ok title →
      str_format template.description (process_template_variables product_info template) = .ok description →
      ((template.max_title_length < title.length →
          (generate_marketplace_content product_info marketplace_key).title
            = some (String.mk (title.data.take (template.max_title_length - 3)) ++ "...")
          ∧ (String.mk (title.data.take (template.max_title_length - 3)) ++ "...").length
              = template.max_title_length
          ∧ ∃ pre, (generate_marketplace_content product_info marketplace_key).title
              = some (pre ++ "..."))
       ∧ (title.length ≤ template.max_title_length →
          (generate_marketplace_content product_info marketplace_key).title = some title)) := by
  intro product_info marketplace_key template title description hT hV hTi hD
  have h3 : 3 ≤ template.max_title_length :=
    catalog_title_length_ge_three _ (mem_of_templates_get hT)
  have hdl : title.length = title.data.length := rfl
  rw [generate_eq_success hT hV hTi hD]
  constructor
  · intro hlen
    have htoNat : ((template.max_title_length : Int) - 3).toNat = template.max_title_length - 3 := by
      omega
    have htr : truncate_title title template.max_title_length
        = String.mk (title.data.take (template.max_title_length - 3)) ++ "..." := by
      unfold truncate_title py_slice_to
      rw [if_pos hlen, if_pos (by omega : (0:Int) ≤ (template.max_title_length : Int) - 3), htoNat]
    refine ⟨by simp [successResult, htr], ?_,
      ⟨String.mk (title.data.take (template.max_title_length - 3)),
       by simp [successResult, htr]⟩⟩
    simp only [String.length_append, String.length_mk, List.length_take]
    have : ("..." : String).length = 3 := rfl
    omega
  · intro hle
    have htr : truncate_title title template.max_title_length = title := by
      unfold truncate_title
      rw [if_neg (by omega)]
    simp [successResult, htr]

/-- C6 witness: the Meesho rule truncates a 72-character rendered title to
exactly 60 characters ending in `"..."`. -/
theorem c6_title_truncation_witness :
    (generate_marketplace_content longFacts "meesho").title
      = some (String.mk (("B " ++ String.mk (List.replicate 70 'a')).data.take (60 - 3)) ++ "...")
    ∧ (String.mk (("B " ++ String.mk (List.replicate 70 'a')).data.take (60 - 3)) ++ "...").length
        = 60 := by
  have h := (c6_title_truncation longFacts "meesho" meeshoRule
    ("B " ++ String.mk (List.replicate 70 'a')) "desc\n\n• feat one\n\n"
    (by decide) (by decide) (by rfl) (by rfl)).1 (by decide)
  exact ⟨h.1, h.2.1⟩

/-- Every run of `generate_marketplace_content` produces one of the four
dictionaries the source can return. -/
theorem generate_shapes :
    ∀ (product_info : ProductInfo) (marketplace_key : String),
      (∃ msg, generate_marketplace_content product_info marketplace_key = errorResult msg)
      ∨ (∃ msg errs, generate_marketplace_content product_info marketplace_key
           = validationFailureResult msg errs)
      ∨ (∃ template e, generate_marketplace_content product_info marketplace_key
           = unexpectedErrorResult marketplace_key template e)
      ∨ (∃ template title description,
           generate_marketplace_content product_info marketplace_key
             = successResult marketplace_key template product_info title description) := by
  intro product_info marketplace_key
  rcases hT : templates_get marketplace_key with _ | template
  · exact Or.inl ⟨_, by unfold generate_marketplace_content; rw [hT]⟩
  · rcases hV : validate_product_info product_info template with _ | ⟨e, es⟩
    · rcases hTi : str_format template.title (process_template_variables product_info template)
        with e | title
      · exact Or.inr (Or.inr (Or.inl ⟨template, e,
          by unfold generate_marketplace_content; rw [hT]; simp only [hV, hTi]⟩))
      · rcases hD : str_format template.description (process_template_variables product_info template)
          with fe | description
        · rcases fe with k | m
          · exact Or.inl ⟨"Missing required template variable: " ++ fmt_error_str (FmtError.keyError k),
              by unfold generate_marketplace_content; rw [hT]; simp only [hV, hTi, hD]⟩
          · exact Or.inr (Or.inr (Or.inl ⟨template, FmtError.valueError m,
              by unfold generate_marketplace_content; rw [hT]; simp only [hV, hTi, hD]⟩))
        · exact Or.inr (Or.inr (Or.inr ⟨template, title, description,
            by unfold generate_marketplace_content; rw [hT]; simp only [hV, hTi, hD]⟩))
    · exact Or.inr (Or.inl ⟨"Validation failed: " ++ String.intercalate "; " (e :: es), e :: es,
        by unfold generate_marketplace_content; rw [hT]; simp only [hV]⟩)

/-- C10: `generate_marketplace_content` is total (a Lean function) and its
result is a tagged union: a `success = true` record populates title,
description, bullet points, keywords and specifications and carries no
error, while a `success = false` record carries an error reason and none of
the content fields. -/
theorem c10_result_shape :
    ∀ (product_info : ProductInfo) (marketplace_key : String),
      ((generate_marketplace_content product_info marketplace_key).success = true →
         (generate_marketplace_content product_info marketplace_key).error = none
       ∧ (generate_marketplace_content product_info marketplace_key).validation_errors = none
       ∧ (generate_marketplace_content product_info marketplace_key).title.isSome = true
       ∧ (generate_marketplace_content product_info marketplace_key).description.isSome = true
       ∧ (generate_marketplace_content product_info marketplace_key).bullet_points.isSome = true
       ∧ (generate_marketplace_content product_info marketplace_key).keywords.isSome = true
       ∧ (generate_marketplace_content product_info marketplace_key).specifications.isSome = true)
    ∧ ((generate_marketplace_content product_info marketplace_key).success = false →
         (generate_marketplace_content product_info marketplace_key).error.isSome = true
       ∧ (generate_marketplace_content product_info marketplace_key).title = none
       ∧ (generate_marketplace_content product_info marketplace_key).description = none
       ∧ (generate_marketplace_content product_info marketplace_key).bullet_points = none
       ∧ (generate_marketplace_content product_info marketplace_key).keywords = none
       ∧ (generate_marketplace_content product_info marketplace_key).specifications = none) := by
  intro product_info marketplace_key
  rcases generate_shapes product_info marketplace_key with
    ⟨msg, h⟩ | ⟨msg, errs, h⟩ | ⟨template, e, h⟩ | ⟨template, title, description, h⟩ <;>
    rw [h] <;>
    simp [errorResult, validationFailureResult, unexpectedErrorResult, successResult]

/-- C10 witness: the success branch discharged on a concrete fact set and
marketplace. -/
theorem c10_result_shape_witness :
    (generate_marketplace_content fullFacts "meesho").error = none
    ∧ (generate_marketplace_content fullFacts "meesho").validation_errors = none
    ∧ (generate_marketplace_content fullFacts "meesho").title.isSome = true
    ∧ (generate_marketplace_content fullFacts "meesho").description.isSome = true
    ∧ (generate_marketplace_content fullFacts "meesho").bullet_points.isSome = true
    ∧ (generate_marketplace_content fullFacts "meesho").keywords.isSome = true
    ∧ (generate_marketplace_content fullFacts "meesho").specifications.isSome = true :=
  (c10_result_shape fullFacts "meesho").1 (by rfl)

/-- The threaded validator returns its errors alongside an unchanged
dictionary. -/
theorem validate_st_eq (product_info : ProductInfo) (template : MarketTemplate) :
    validate_product_info_st product_info template
      = (validate_product_info product_info template, product_info) := by
  simp [validate_product_info_st, validate_product_info,
    pi_read_basic_info, pi_read_features, List.append_assoc]

/-- The threaded variable derivation returns its map alongside an unchanged
dictionary. -/
theorem process_st_eq (product_info : ProductInfo) (template : MarketTemplate) :
    process_template_variables_st product_info template
      = (process_template_variables product_info template, product_info) := rfl

/-- The threaded generator computes the pure generator's result and leaves
the dictionary unchanged. -/
theorem generate_st_eq (product_info : ProductInfo) (marketplace_key : String) :
    generate_marketplace_content_st product_info marketplace_key
      = (generate_marketplace_content product_info marketplace_key, product_info) := by
  unfold generate_marketplace_content_st generate_marketplace_content
  rcases hT : templates_get marketplace_key with _ | template
  · rfl
  · simp only [validate_st_eq]
    rcases hV : validate_product_info product_info template with _ | ⟨e, es⟩
    · simp only [process_st_eq]
      rcases hTi : str_format template.title (process_template_variables product_info template)
        with e | title
      · rfl
      · rcases hD : str_format template.description (process_template_variables product_info template)
          with fe | description
        · rcases fe with k | m <;> rfl
        · rfl
    · rfl

/-- Folding the threaded generator over the keys appends the pure results
and leaves the dictionary unchanged. -/
theorem batch_fold_eq (marketplace_keys : List String) :
    ∀ acc : List (String × GenResult) × ProductInfo,
      marketplace_keys.foldl
        (fun (acc : List (String × GenResult) × ProductInfo) marketplace =>
          (acc.1 ++ [(marketplace, (generate_marketplace_content_st acc.2 marketplace).1)],
           (generate_marketplace_content_st acc.2 marketplace).2)) acc
      = (acc.1 ++ marketplace_keys.map
           (fun marketplace => (marketplace, generate_marketplace_content acc.2 marketplace)),
         acc.2) := by
  induction marketplace_keys with
  | nil => intro acc; simp
  | cons k ks ih =>
    intro acc
    simp only [List.foldl_cons, List.map_cons]
    rw [ih]
    simp [generate_st_eq, List.append_assoc]

/-- C9: neither `generate_marketplace_content` nor
`generate_all_marketplace_content` mutates the product-info dictionary: the
state-threaded embeddings return the input unchanged (and compute the same
results as the read-only model). -/
theorem c9_no_mutation :
    ∀ (product_info : ProductInfo) (marketplace_key : String) (marketplace_keys : List String),
      (generate_marketplace_content_st product_info marketplace_key).2 = product_info
      ∧ (generate_all_marketplace_content_st product_info marketplace_keys).2 = product_info
      ∧ (generate_marketplace_content_st product_info marketplace_key).1
          = generate_marketplace_content product_info marketplace_key
      ∧ (generate_all_marketplace_content_st product_info marketplace_keys).1
          = generate_all_marketplace_content product_info marketplace_keys := by
  intro product_info marketplace_key marketplace_keys
  refine ⟨by simp [generate_st_eq], ?_, by simp [generate_st_eq], ?_⟩
  · simp [generate_all_marketplace_content_st, batch_fold_eq]
  · simp [generate_all_marketplace_content_st, batch_fold_eq, generate_all_marketplace_content]

/-- ASCII lower-casing is idempotent. -/
theorem toLower_toLower (c : Char) : c.toLower.toLower = c.toLower := by
  by_cases h : c.toNat ≥ 65 ∧ c.toNat ≤ 90
  · have hin : c.toLower = Char.ofNat (c.toNat + 32) := by
      simp [Char.toLower, h]
    rw [hin]
    obtain ⟨h1, h2⟩ := h
    generalize hg : c.toNat = n at h1 h2
    interval_cases n <;> decide
  · have hin : c.toLower = c := by
      simp [Char.toLower, h]
    rw [hin, hin]

/-- A character list fixed pointwise by `toLower` is fixed by the map. -/
theorem map_toLower_eq_self {l : List Char} (h : ∀ c ∈ l, c.toLower = c) :
    l.map Char.toLower = l :=
  (List.map_congr_left h).trans (List.map_id l)

/-- Every character of a lower-cased string is fixed by `toLower`. -/
theorem lower_fixed_of_mem_lower {s : String} : ∀ c ∈ (py_lower s).data, c.toLower = c := by
  intro c hc
  simp only [py_lower] at hc
  rcases List.mem_map.mp hc with ⟨c0, -, rfl⟩
  exact toLower_toLower c0

/-- A string fixed pointwise by `toLower` is its own lower-casing. -/
theorem py_lower_eq_self {s : String} (h : ∀ c ∈ s.data, c.toLower = c) :
    py_lower s = s := by
  unfold py_lower
  rw [map_toLower_eq_self h]

/-- Characters of a whitespace-split token come from the splitter's input
or its accumulator. -/
theorem split_ws_aux_chars :
    ∀ (cs acc : List Char), ∀ t ∈ split_ws_aux cs acc, ∀ c ∈ t, c ∈ cs ∨ c ∈ acc := by
  intro cs
  induction cs with
  | nil =>
    intro acc t ht c hc
    simp only [split_ws_aux] at ht
    split at ht
    · simp at ht
    · rw [List.mem_singleton] at ht
      subst ht
      exact Or.inr (List.mem_reverse.mp hc)
  | cons c0 rest ih =>
    intro acc t ht c hc
    simp only [split_ws_aux] at ht
    by_cases hws : pyWs c0
    · rw [if_pos hws] at ht
      by_cases hacc : acc = []
      · rw [if_pos hacc] at ht
        rcases ih [] t ht c hc with h | h
        · exact Or.inl (List.mem_cons_of_mem _ h)
        · simp at h
      · rw [if_neg hacc] at ht
        rcases List.mem_cons.mp ht with rfl | ht2
        · exact Or.inr (List.mem_reverse.mp hc)
        · rcases ih [] t ht2 c hc with h | h
          · exact Or.inl (List.mem_cons_of_mem _ h)
          · simp at h
    · rw [if_neg hws] at ht
      rcases ih (c0 :: acc) t ht c hc with h | h
      · exact Or.inl (List.mem_cons_of_mem _ h)
      · rcases List.mem_cons.mp h with rfl | h2
        · exact Or.inl (List.mem_cons_self _ _)
        · exact Or.inr h2

/-- Characters of a `py_split` token come from the split string. -/
theorem mem_py_split_chars {s t : String} (ht : t ∈ py_split s) :
    ∀ c ∈ t.data, c ∈ s.data := by
  rcases List.mem_map.mp ht with ⟨tc, htc, rfl⟩
  intro c hc
  rcases split_ws_aux_chars s.data [] tc htc c hc with h | h
  · exact h
  · simp at h

/-- Membership through a Python-set insertion. -/
theorem mem_pyset_insert {l : List String} {x y : String}
    (h : y ∈ pyset_insert l x) : y ∈ l ∨ y = x := by
  unfold pyset_insert at h
  split at h
  · exact Or.inl h
  · rcases List.mem_append.mp h with h1 | h1
    · exact Or.inl h1
    · exact Or.inr (List.mem_singleton.mp h1)

/-- Membership through a Python-set update. -/
theorem mem_pyset_update {xs : List String} :
    ∀ {l : List String} {y : String}, y ∈ pyset_update l xs → y ∈ l ∨ y ∈ xs := by
  induction xs with
  | nil => intro l y h; exact Or.inl h
  | cons x xs ih =>
    intro l y h
    rcases ih h with h1 | h1
    · rcases mem_pyset_insert h1 with h2 | h2
      · exact Or.inl h2
      · exact Or.inr (by simp [h2])
    · exact Or.inr (List.mem_cons_of_mem _ h1)

/-- Invariant of the feature-token fold in the keyword extractor. -/
theorem mem_features_foldl {P : String → Prop} :
    ∀ (fs : List String) (l : List String),
      (∀ x ∈ l, P x) →
      (∀ f ∈ fs, ∀ x ∈ py_split (py_lower f), P x) →
      ∀ x ∈ fs.foldl (fun acc f => pyset_update acc (py_split (py_lower f))) l, P x := by
  intro fs
  induction fs with
  | nil => intro l hl _ x hx; exact hl x hx
  | cons f fs ih =>
    intro l hl hfs x hx
    simp only [List.foldl_cons] at hx
    refine ih _ ?_ (fun g hg => hfs g (List.mem_cons_of_mem _ hg)) x hx
    intro y hy
    rcases mem_pyset_update hy with h1 | h1
    · exact hl y h1
    · exact hfs f (List.mem_cons_self _ _) y h1

/-- Every string in the keyword pool is fixed pointwise by `toLower`. -/
theorem keyword_pool_lower (product_name brand category : String) (features : List String) :
    ∀ x ∈ keyword_pool product_name brand category features, ∀ c ∈ x.data, c.toLower = c := by
  intro x hx
  unfold keyword_pool at hx
  have hk2 : ∀ y ∈ pyset_insert (pyset_update [] (py_split (py_lower product_name))) (py_lower brand),
      ∀ c ∈ y.data, c.toLower = c := by
    intro y hy
    rcases mem_pyset_insert hy with h1 | hb
    · rcases mem_pyset_update h1 with h0 | htok
      · simp at h0
      · exact fun c hc => lower_fixed_of_mem_lower c (mem_py_split_chars htok c hc)
    · subst hb
      exact lower_fixed_of_mem_lower
  rcases mem_pyset_update hx with h4 | hlit
  · refine @mem_features_foldl (fun y => ∀ c ∈ y.data, c.toLower = c) features _ ?_ ?_ x h4
    · intro y hy
      by_cases hcat : category ≠ ""
      · rw [if_pos hcat] at hy
        rcases mem_pyset_update hy with h2 | htok
        · exact hk2 y h2
        · exact fun c hc => lower_fixed_of_mem_lower c (mem_py_split_chars htok c hc)
      · rw [if_neg hcat] at hy
        exact hk2 y hy
    · intro f _ y hy
      exact fun c hc => lower_fixed_of_mem_lower c (mem_py_split_chars hy c hc)
  · fin_cases hlit <;> decide

/-- `dropWhile` is the identity on a list whose head fails the predicate. -/
theorem dropWhile_eq_self_head {p : Char → Bool} :
    ∀ {l : List Char}, (∀ h : l ≠ [], p (l.head h) = false) → l.dropWhile p = l := by
  intro l
  cases l with
  | nil => intro _; rfl
  | cons c t =>
    intro h
    have hc := h (by simp)
    simp only [List.head_cons] at hc
    simp [List.dropWhile_cons, hc]

/-- The right-trimmed tail decomposition behind `strip_chars`. -/
theorem strip_chars_decomp (cs : List Char) :
    cs.dropWhile pyWs
      = strip_chars cs ++ ((cs.dropWhile pyWs).reverse.takeWhile pyWs).reverse := by
  unfold strip_chars
  conv_lhs =>
    rw [← List.reverse_reverse (cs.dropWhile pyWs),
        ← List.takeWhile_append_dropWhile pyWs ((cs.dropWhile pyWs).reverse)]
  rw [List.reverse_append]

/-- Stripping is idempotent. -/
theorem strip_chars_idem (cs : List Char) : strip_chars (strip_chars cs) = strip_chars cs := by
  by_cases hnil : strip_chars cs = []
  · rw [hnil]; rfl
  · have hX : (strip_chars cs).reverse = (cs.dropWhile pyWs).reverse.dropWhile pyWs := by
      unfold strip_chars
      rw [List.reverse_reverse]
    have hd1 : List.dropWhile pyWs (strip_chars cs) = strip_chars cs := by
      rcases hsc : strip_chars cs with _ | ⟨c0, rest⟩
      · rfl
      · have hdecomp := strip_chars_decomp cs
        rw [hsc] at hdecomp
        have hh := List.head?_dropWhile_not pyWs cs
        rw [hdecomp] at hh
        simp only [List.cons_append, List.head?_cons] at hh
        simp [List.dropWhile_cons, hh]
    have hd2 : List.dropWhile pyWs (strip_chars cs).reverse = (strip_chars cs).reverse := by
      rcases hscr : (strip_chars cs).reverse with _ | ⟨c0, rest⟩
      · rfl
      · have hh := List.head?_dropWhile_not pyWs (cs.dropWhile pyWs).reverse
        rw [← hX, hscr] at hh
        simp only [List.head?_cons] at hh
        simp [List.dropWhile_cons, hh]
    calc strip_chars (strip_chars cs)
        = (((strip_chars cs).dropWhile pyWs).reverse.dropWhile pyWs).reverse := rfl
      _ = ((strip_chars cs).reverse.dropWhile pyWs).reverse := by rw [hd1]
      _ = ((strip_chars cs).reverse).reverse := by rw [hd2]
      _ = strip_chars cs := List.reverse_reverse _

/-- Python strip is idempotent at the string level. -/
theorem py_strip_idem (s : String) : py_strip (py_strip s) = py_strip s :=
  congrArg String.mk (strip_chars_idem s.data)

/-- Characters survive the strip only if they were in the input. -/
theorem mem_of_mem_strip {c : Char} {cs : List Char} (h : c ∈ strip_chars cs) : c ∈ cs := by
  unfold strip_chars at h
  rw [List.mem_reverse] at h
  have h1 := List.dropWhile_subset pyWs h
  rw [List.mem_reverse] at h1
  exact List.dropWhile_subset pyWs h1

/-- C3 counterexample: a brand of `" ab "` (length 4 with its padding)
passes the raw-length filter `len(k) > 2` but strips to the two-character
keyword `"ab"`, so not every returned entry has length strictly greater
than two. -/
theorem c3_counterexample :
    "ab" ∈ generate_keywords "" " ab " "" []
    ∧ ¬ ("ab".length > 2) := by
  decide

/-- C3 (amended): the keyword extractor returns at most 20 entries, each
lower-cased, whitespace-trimmed and non-empty; the length-over-two filter
is applied to the raw token *before* trimming, so a trimmed entry may be
shorter. -/
theorem c3_keywords_trimmed :
    ∀ (product_name brand category : String) (features : List String),
      (generate_keywords product_name brand category features).length ≤ 20
      ∧ ∀ k ∈ generate_keywords product_name brand category features,
          py_lower k = k ∧ py_strip k = k ∧ k ≠ "" := by
  intro product_name brand category features
  constructor
  · apply List.length_take_le
  · intro k hk
    unfold generate_keywords at hk
    have hk2 := List.mem_of_mem_take hk
    rcases List.mem_map.mp hk2 with ⟨x, hxf, rfl⟩
    obtain ⟨hxmem, hPb⟩ := List.mem_filter.mp hxf
    have hPs : py_strip x ≠ "" := by
      have := of_decide_eq_true hPb
      exact this.2
    have hlf : ∀ c ∈ x.data, c.toLower = c :=
      keyword_pool_lower product_name brand category features x hxmem
    refine ⟨?_, py_strip_idem x, hPs⟩
    apply py_lower_eq_self
    intro c hc
    exact hlf c (mem_of_mem_strip hc)

/-- C3 witness: the amended statement evaluated on a concrete extraction. -/
theorem c3_keywords_trimmed_witness :
    py_lower "buy" = "buy" ∧ py_strip "buy" = "buy" ∧ "buy" ≠ "" :=
  (c3_keywords_trimmed "" "" "" []).2 "buy" (by decide)

/-- C7: the merge-chain reply parser tries a direct parse of the stripped
reply first, then the substring from the first `{` to the last `}`, and
otherwise returns the parse-failure record carrying the raw reply (being a
total function, nothing escapes its boundary); the spec's concrete example
parses to an object whose `productName` is `"X"`. -/
theorem c7_parse_fallback :
    (∀ output v, json_loads (py_strip output) = some v →
       parse_output output = .parsed v)
    ∧ (∀ output sub v, json_loads (py_strip output) = none →
         brace_slice output = some sub → json_loads sub = some v →
         parse_output output = .parsed v)
    ∧ (∀ output, json_loads (py_strip output) = none →
         (∀ sub, brace_slice output = some sub → json_loads sub = none) →
         parse_output output = .parseError "Failed to parse model output" output)
    ∧ parse_output "Here is the data: \x7b\"productName\":\"X\"\x7d thanks"
        = .parsed (.obj [("productName", .str "X")]) := by
  refine ⟨?_, ?_, ?_, by rfl⟩
  · intro output v h
    unfold parse_output
    rw [h]
  · intro output sub v h1 h2 h3
    unfold parse_output
    rw [h1, h2]
    simp only [h3]
  · intro output h1 h2
    unfold parse_output
    rw [h1]
    rcases hb : brace_slice output with _ | sub
    · rfl
    · simp only [h2 sub hb]

/-- C7 witness: the two-stage parse applied to a trivially well-formed
reply. -/
theorem c7_parse_fallback_witness :
    parse_output "\x7b\x7d" = .parsed (.obj []) :=
  c7_parse_fallback.1 "\x7b\x7d" (.obj []) (by rfl)
